import Mathlib

/-!
Verification development for the SSH credential-issuance backend
(builtin/logical/ssh/path_creds_create.go).

The Go file is embedded shallowly.  External collaborators (the key-value
storage backend, role lookup, the salt, the UUID generator, net.ParseIP,
CIDR matching, RSA key generation, the SCP/remote-exec transport) are
function-valued fields of an environment record `Env`; the functions of the
source file are Lean functions over that environment which additionally
return the ordered trace of collaborator side effects they perform.  The
unbounded free-key search loop of GenerateOTPCredential is embedded with a
fuel parameter; a dedicated `fuelOut` outcome marks executions that did not
finish within the fuel, so every theorem about terminating executions covers
every terminating run of the Go loop.
-/

set_option maxRecDepth 4096

/-- Single quotation mark character, used inside source error messages. -/
def sQuote : String := String.singleton (Char.ofNat 39)

deriving instance DecidableEq for Except

/-- Value persisted for an issued OTP, mirrors type sshOTP of the source
(fields Username, IP with lowercase JSON keys). -/
structure sshOTP where
  username : String
  ip : String
deriving DecidableEq

/-- Role record as read by pathCredsCreateWrite; mirrors the fields of type
sshRole that this file consumes (the type itself is declared elsewhere in
the repository). -/
structure sshRole where
  keyType : String
  defaultUser : String
  cidrList : String
  adminUser : String
  keyName : String
  port : Nat
  keyBits : Nat
  installScript : String
deriving DecidableEq

/-- A storage entry as returned by Storage.Get.  The only decoding the source
performs on a fetched entry is DecodeJSON into an sshHostKey, so the entry is
modelled by the outcome of that decode (the Key field on success). -/
structure StorEntry where
  hostKeyDecode : Except String String
deriving DecidableEq

/-- Side effects on external collaborators, in the order the source performs
them: role lookup (a storage-backed read), raw storage reads and writes,
scpUpload calls, installPublicKeyInTarget calls, and the lease-policy
lookup. -/
inductive Effect where
  | roleLookup (name : String)
  | storGet (key : String)
  | storPut (key : String) (value : sshOTP)
  | scp (adminUser ip : String) (port : Nat) (hostKey fileName contents : String)
  | install (adminUser publicKeyFileName username ip : String) (port : Nat)
      (hostKey : String) (installFlag : Bool)
  | leaseLookup
deriving DecidableEq

/-- Environment of external collaborators.  Each field gives the outcome of
one out-of-scope operation; `Option String` outcomes are `some errMsg` on
failure and `none` on success, matching the Go error convention. -/
structure Env where
  getRole : String → Except String (Option sshRole)
  storGet : String → Except String (Option StorEntry)
  storPut : String → sshOTP → Option String
  jsonMarshal : sshOTP → Option String
  uuidAt : Nat → String
  saltID : String → String
  parseIP : String → Option String
  cidrContainsIP : String → String → Except String Bool
  generateRSAKeys : Nat → Except String (String × String)
  scpUpload : String → String → Nat → String → String → String → Option String
  installPublicKeyInTarget :
      String → String → String → String → Nat → String → Bool → Option String

/-- Modelled from the spec: the role key-type constants are the strings otp
and dynamic (spec section 3); the constants themselves are declared outside
the provided source file. -/
def KeyTypeOTP : String := "otp"

/-- Modelled from the spec: see KeyTypeOTP. -/
def KeyTypeDynamic : String := "dynamic"

/-- Modelled from the spec: identifier of the OTP secret type; declared
outside the provided source file, its value is immaterial to the claims
(only its distinctness from the dynamic secret type is used). -/
def SecretOTPType : String := "secret_otp_type"

/-- Modelled from the spec: identifier of the dynamic-key secret type; see
SecretOTPType. -/
def SecretDynamicKeyType : String := "secret_dynamic_key_type"

/-- One minute in nanoseconds, the unit of the Go type time.Duration. -/
def timeMinute : Int := 60 * 1000000000

/-- GenerateSaltedOTP of the source: generate a UUID and its salted value.
The UUID generator is modelled as the stream env.uuidAt with an explicit
position counter, which the function advances. -/
def GenerateSaltedOTP (env : Env) (n : Nat) : (String × String) × Nat :=
  ((env.uuidAt n, env.saltID (env.uuidAt n)), n + 1)

/-- Outcome of the free-key search loop inside GenerateOTPCredential:
either a free key was found, or a Get inside the loop body failed (which the
source returns immediately), or the fuel ran out. -/
inductive LoopOut where
  | free (otp otpSalted : String)
  | getErr (e : String)
  | fuelOut
deriving DecidableEq

/-- Body of the for-loop of GenerateOTPCredential, entered when the previous
Get succeeded with an existing entry: regenerate the salted OTP, Get the new
key, return the error if the Get failed, keep looping while the key is
taken. -/
def otpFreeKeyLoop (env : Env) : Nat → Nat → LoopOut × List Effect × Nat
  | 0, n => (.fuelOut, [], n)
  | Nat.succ fuel, n =>
    let s := GenerateSaltedOTP env n
    match env.storGet ("otp/" ++ s.1.2) with
    | .error e => (.getErr e, [Effect.storGet ("otp/" ++ s.1.2)], s.2)
    | .ok none => (.free s.1.1 s.1.2, [Effect.storGet ("otp/" ++ s.1.2)], s.2)
    | .ok (some _) =>
      let r := otpFreeKeyLoop env fuel s.2
      (r.1, Effect.storGet ("otp/" ++ s.1.2) :: r.2.1, r.2.2)

/-- Result of GenerateOTPCredential. -/
inductive OTPOut where
  | ok (otp : String)
  | err (e : String)
  | fuelOut
deriving DecidableEq

/-- Tail of GenerateOTPCredential after the free-key search: build the
storage entry for otp/otpSalted via StorageEntryJSON and Put it. -/
def otpWrite (env : Env) (otp otpSalted username ip : String) (n : Nat) :
    OTPOut × List Effect × Nat :=
  match env.jsonMarshal { username := username, ip := ip } with
  | some e => (.err e, [], n)
  | none =>
    match env.storPut ("otp/" ++ otpSalted) { username := username, ip := ip } with
    | some e =>
      (.err e, [Effect.storPut ("otp/" ++ otpSalted) { username := username, ip := ip }], n)
    | none =>
      (.ok otp, [Effect.storPut ("otp/" ++ otpSalted) { username := username, ip := ip }], n)

/-- GenerateOTPCredential of the source.  Faithful detail: when the very
first Get returns an error, the loop condition (err == nil AND entry != nil)
is false, the loop never runs, the error is not re-checked, and control
falls through to the entry write with the current salted OTP. -/
def GenerateOTPCredential (env : Env) (fuel : Nat) (n : Nat) (username ip : String) :
    OTPOut × List Effect × Nat :=
  let s := GenerateSaltedOTP env n
  let g0 : Effect := Effect.storGet ("otp/" ++ s.1.2)
  match env.storGet ("otp/" ++ s.1.2) with
  | .ok (some _) =>
    match otpFreeKeyLoop env fuel s.2 with
    | (.free otp otpSalted, effs, n2) =>
      let r := otpWrite env otp otpSalted username ip n2
      (r.1, g0 :: effs ++ r.2.1, r.2.2)
    | (.getErr e, effs, n2) => (.err e, g0 :: effs, n2)
    | (.fuelOut, effs, n2) => (.fuelOut, g0 :: effs, n2)
  | .ok none =>
    let r := otpWrite env s.1.1 s.1.2 username ip s.2
    (r.1, g0 :: r.2.1, r.2.2)
  | .error _ =>
    let r := otpWrite env s.1.1 s.1.2 username ip s.2
    (r.1, g0 :: r.2.1, r.2.2)

/-- Result of GenerateDynamicCredential: the generated public and private
keys, or an error. -/
inductive DynOut where
  | ok (publicKey privateKey : String)
  | err (e : String)
deriving DecidableEq

/-- GenerateDynamicCredential of the source: fetch the host key, generate an
RSA keypair, upload the public key, upload the install script, then run the
install script in the target. -/
def GenerateDynamicCredential (env : Env) (role : sshRole) (username ip : String)
    (n : Nat) : DynOut × List Effect × Nat :=
  let gk : Effect := Effect.storGet ("keys/" ++ role.keyName)
  match env.storGet ("keys/" ++ role.keyName) with
  | .error e =>
    (.err ("key " ++ sQuote ++ role.keyName ++ sQuote ++ " not found error:" ++ e), [gk], n)
  | .ok none =>
    (.err ("key " ++ sQuote ++ role.keyName ++ sQuote ++ " not found"), [gk], n)
  | .ok (some keyEntry) =>
    match keyEntry.hostKeyDecode with
    | .error e => (.err ("error reading the host key: " ++ e), [gk], n)
    | .ok hostKey =>
      match env.generateRSAKeys role.keyBits with
      | .error e => (.err ("error generating key: " ++ e), [gk], n)
      | .ok (dynamicPublicKey, dynamicPrivateKey) =>
        let s := GenerateSaltedOTP env n
        let publicKeyFileName := s.1.2
        let scp1 : Effect :=
          Effect.scp role.adminUser ip role.port hostKey publicKeyFileName dynamicPublicKey
        match env.scpUpload role.adminUser ip role.port hostKey publicKeyFileName
            dynamicPublicKey with
        | some e => (.err ("error uploading public key: " ++ e), [gk, scp1], s.2)
        | none =>
          let scriptFileName := publicKeyFileName ++ ".sh"
          let scp2 : Effect :=
            Effect.scp role.adminUser ip role.port hostKey scriptFileName role.installScript
          match env.scpUpload role.adminUser ip role.port hostKey scriptFileName
              role.installScript with
          | some e => (.err ("error uploading install script: " ++ e), [gk, scp1, scp2], s.2)
          | none =>
            let ins : Effect :=
              Effect.install role.adminUser publicKeyFileName username ip role.port
                hostKey true
            match env.installPublicKeyInTarget role.adminUser publicKeyFileName username
                ip role.port hostKey true with
            | some _ =>
              (.err ("error adding public key to authorized_keys file in target"),
               [gk, scp1, scp2, ins], s.2)
            | none => (.ok dynamicPublicKey dynamicPrivateKey, [gk, scp1, scp2, ins], s.2)

/-- Values appearing in the data and internal maps of a response. -/
inductive FieldVal where
  | str (s : String)
  | nat (n : Nat)
deriving DecidableEq

/-- A successful secret response: secret type, public data, internal data,
and the lease fields set by the tail of pathCredsCreateWrite. -/
structure SecretResponse where
  secretType : String
  data : List (String × FieldVal)
  internal : List (String × FieldVal)
  lease : Int
  leaseGracePeriod : Int
deriving DecidableEq

/-- Overall outcome of pathCredsCreateWrite: a structured user-error
response (logical.ErrorResponse with nil error), a fatal internal error (nil
response with non-nil error), a successful secret response, or fuel
exhaustion of the embedded OTP loop. -/
inductive WriteResult where
  | userError (msg : String)
  | fatal (msg : String)
  | success (resp : SecretResponse)
  | fuelOut
deriving DecidableEq

/-- Modelled from the spec: outcome of the lease-policy lookup b.Lease,
which is declared outside the provided source file — a configured policy
with its lease and lease-max durations, no configured policy, or a lookup
error. -/
inductive LeaseLookup where
  | found (lease leaseMax : Int)
  | notConfigured
  | lookupError (e : String)
deriving DecidableEq

/-- Modelled from the spec: the call site discards the error of b.Lease
(lease, _ := b.Lease(req.Storage)) and branches only on lease being nil;
per spec section 4.4 a failing lookup is treated as no policy configured,
so the erroring case yields no lease. -/
def leaseOf : LeaseLookup → Option (Int × Int)
  | .found l m => some (l, m)
  | .notConfigured => none
  | .lookupError _ => none

/-- Tail of pathCredsCreateWrite: set the lease information on the response,
using the configured lease and lease-max when a lease policy was found and
the fixed defaults of 10 minutes and 2 minutes otherwise. -/
def applyLease (lr : LeaseLookup) (resp : SecretResponse) : SecretResponse :=
  match leaseOf lr with
  | some (l, m) => { resp with lease := l, leaseGracePeriod := m }
  | none => { resp with lease := 10 * timeMinute, leaseGracePeriod := 2 * timeMinute }

/-- Request fields of the creds/ path: role, username, ip; absent string
fields arrive as the empty string. -/
structure CredsRequest where
  role : String
  username : String
  ip : String
deriving DecidableEq

/-- Body of pathCredsCreateWrite up to and including the credential-type
branch, before the lease information is set: the validation chain, then
GenerateOTPCredential or GenerateDynamicCredential, shaping the response
data and internal maps exactly as the source does. -/
def pathCredsCreateCore (env : Env) (fuel : Nat) (req : CredsRequest) :
    WriteResult × List Effect :=
  if req.role = "" then (.userError ("Missing role"), [])
  else if req.ip = "" then (.userError ("Missing ip"), [])
  else
    match env.getRole req.role with
    | .error e => (.fatal ("error retrieving role: " ++ e), [Effect.roleLookup req.role])
    | .ok none =>
      (.userError ("Role " ++ sQuote ++ req.role ++ sQuote ++ " not found"),
       [Effect.roleLookup req.role])
    | .ok (some role) =>
      let usernameOpt : Option String :=
        if req.username = "" then
          (if role.defaultUser = "" then none else some role.defaultUser)
        else some req.username
      match usernameOpt with
      | none =>
        (.userError ("No default username registered. Use " ++ sQuote ++ "username" ++ sQuote
            ++ " option"),
         [Effect.roleLookup req.role])
      | some username =>
        match env.parseIP req.ip with
        | none =>
          (.userError ("Invalid IP " ++ sQuote ++ req.ip ++ sQuote), [Effect.roleLookup req.role])
        | some ip =>
          match env.cidrContainsIP ip role.cidrList with
          | .error e =>
            (.userError ("Error validating IP: " ++ e), [Effect.roleLookup req.role])
          | .ok false =>
            (.userError ("IP[" ++ ip ++ "] does not belong to role[" ++ req.role ++ "]"),
             [Effect.roleLookup req.role])
          | .ok true =>
            if role.keyType = KeyTypeOTP then
              match GenerateOTPCredential env fuel 0 username ip with
              | (.ok otp, effs, _) =>
                (.success
                  { secretType := SecretOTPType,
                    data := [("key_type", FieldVal.str role.keyType),
                             ("key", FieldVal.str otp)],
                    internal := [("otp", FieldVal.str otp)],
                    lease := 0, leaseGracePeriod := 0 },
                 Effect.roleLookup req.role :: effs)
              | (.err e, effs, _) => (.fatal e, Effect.roleLookup req.role :: effs)
              | (.fuelOut, effs, _) => (.fuelOut, Effect.roleLookup req.role :: effs)
            else if role.keyType = KeyTypeDynamic then
              match GenerateDynamicCredential env role username ip 0 with
              | (.ok dynamicPublicKey dynamicPrivateKey, effs, _) =>
                (.success
                  { secretType := SecretDynamicKeyType,
                    data := [("key", FieldVal.str dynamicPrivateKey),
                             ("key_type", FieldVal.str role.keyType)],
                    internal := [("admin_user", FieldVal.str role.adminUser),
                                 ("username", FieldVal.str username),
                                 ("ip", FieldVal.str ip),
                                 ("host_key_name", FieldVal.str role.keyName),
                                 ("dynamic_public_key", FieldVal.str dynamicPublicKey),
                                 ("port", FieldVal.nat role.port),
                                 ("install_script", FieldVal.str role.installScript)],
                    lease := 0, leaseGracePeriod := 0 },
                 Effect.roleLookup req.role :: effs)
              | (.err e, effs, _) => (.fatal e, Effect.roleLookup req.role :: effs)
            else (.fatal ("key type unknown"), [Effect.roleLookup req.role])

/-- pathCredsCreateWrite of the source: the validation-and-issuance core,
then the lease information is set on a successful response (the lease
lookup runs only when a response was produced, i.e. on success). -/
def pathCredsCreateWrite (env : Env) (lr : LeaseLookup) (fuel : Nat)
    (req : CredsRequest) : WriteResult × List Effect :=
  match pathCredsCreateCore env fuel req with
  | (.success resp, effs) => (.success (applyLease lr resp), effs ++ [Effect.leaseLookup])
  | other => other

/-- True exactly on storage-write effects. -/
def isPut : Effect → Bool
  | .storPut _ _ => true
  | _ => false

/-- True exactly on remote-copy effects. -/
def isScp : Effect → Bool
  | .scp _ _ _ _ _ _ => true
  | _ => false

/-- True exactly on remote install-execution effects. -/
def isInstall : Effect → Bool
  | .install _ _ _ _ _ _ _ => true
  | _ => false

/-- Demo role with key type otp and a default username, as in the end-to-end
scenario of the spec (role web, CIDR 10.0.0.0/24, default user deploy). -/
def roleWeb : sshRole :=
  { keyType := "otp", defaultUser := "deploy", cidrList := "10.0.0.0/24",
    adminUser := "root", keyName := "hostkey", port := 22, keyBits := 1024,
    installScript := "SCRIPT" }

/-- Demo role with key type dynamic. -/
def roleDyn : sshRole :=
  { keyType := "dynamic", defaultUser := "deploy", cidrList := "10.0.0.0/24",
    adminUser := "root", keyName := "hostkey", port := 22, keyBits := 1024,
    installScript := "SCRIPT" }

/-- Demo role whose key type is neither otp nor dynamic. -/
def roleWeird : sshRole :=
  { keyType := "weird", defaultUser := "deploy", cidrList := "10.0.0.0/24",
    adminUser := "root", keyName := "hostkey", port := 22, keyBits := 1024,
    installScript := "SCRIPT" }

/-- Demo role with key type otp and no default username. -/
def roleNoDefault : sshRole :=
  { keyType := "otp", defaultUser := "", cidrList := "10.0.0.0/24",
    adminUser := "root", keyName := "hostkey", port := 22, keyBits := 1024,
    installScript := "SCRIPT" }

/-- Demo environment on which every collaborator succeeds.  parseIP mirrors
net.ParseIP composed with String on the exercised inputs: the dotted quad
10.0.0.5 is already canonical, the uncompressed loopback 0:0:0:0:0:0:0:1 is
canonicalised to ::1, and other strings used here (such as zzz) are not
valid addresses. -/
def demoEnv : Env :=
  { getRole := fun name =>
      if name = "web" then Except.ok (some roleWeb)
      else if name = "dyn" then Except.ok (some roleDyn)
      else if name = "weird" then Except.ok (some roleWeird)
      else if name = "nodef" then Except.ok (some roleNoDefault)
      else Except.ok none,
    storGet := fun k =>
      if k = "keys/hostkey" then Except.ok (some { hostKeyDecode := Except.ok ("HOSTKEY") })
      else Except.ok none,
    storPut := fun _ _ => none,
    jsonMarshal := fun _ => none,
    uuidAt := fun n => "uuid" ++ toString n,
    saltID := fun s => "salt-" ++ s,
    parseIP := fun s =>
      if s = "10.0.0.5" then some ("10.0.0.5")
      else if s = "0:0:0:0:0:0:0:1" then some ("::1")
      else none,
    cidrContainsIP := fun _ _ => Except.ok true,
    generateRSAKeys := fun _ => Except.ok ("PUB", "PRIV"),
    scpUpload := fun _ _ _ _ _ _ => none,
    installPublicKeyInTarget := fun _ _ _ _ _ _ _ => none }

/-- Demo environment whose storage Get fails on every key. -/
def envGetFails : Env :=
  { demoEnv with storGet := fun _ => Except.error ("disk") }

/-- Demo environment on which the first remote-copy (the public-key upload)
fails: the upload of the file named salt-uuid0 reports boom. -/
def envScpFails : Env :=
  { demoEnv with scpUpload := fun _ _ _ _ f _ =>
      if f = "salt-uuid0" then some ("boom") else none }

/-- Every effect of the free-key search loop is a storage read, and when the
loop reports a free key, the salted part is the salt of the OTP part. -/
theorem otpFreeKeyLoop_spec (env : Env) (fuel : Nat) :
    ∀ n out effs n2, otpFreeKeyLoop env fuel n = (out, effs, n2) →
      (∀ e ∈ effs, ∃ k, e = Effect.storGet k) ∧
      (∀ o s, out = LoopOut.free o s → s = env.saltID o) := by
  induction fuel with
  | zero =>
    intro n out effs n2 h
    simp only [otpFreeKeyLoop, Prod.mk.injEq] at h
    obtain ⟨rfl, rfl, rfl⟩ := h
    exact ⟨(by intro e he; cases he), (by intro o s hh; cases hh)⟩
  | succ fuel ih =>
    intro n out effs n2 h
    simp only [otpFreeKeyLoop, GenerateSaltedOTP] at h
    split at h
    · simp only [Prod.mk.injEq] at h
      obtain ⟨rfl, rfl, rfl⟩ := h
      refine ⟨?_, ?_⟩
      · intro e he
        rw [List.mem_singleton] at he
        exact ⟨_, he⟩
      · intro o s hh; cases hh
    · simp only [Prod.mk.injEq] at h
      obtain ⟨rfl, rfl, rfl⟩ := h
      refine ⟨?_, ?_⟩
      · intro e he
        rw [List.mem_singleton] at he
        exact ⟨_, he⟩
      · intro o s hh
        cases hh
        rfl
    · simp only [Prod.mk.injEq] at h
      obtain ⟨rfl, rfl, rfl⟩ := h
      have hrec := ih (n + 1) (otpFreeKeyLoop env fuel (n + 1)).1
        (otpFreeKeyLoop env fuel (n + 1)).2.1 (otpFreeKeyLoop env fuel (n + 1)).2.2 rfl
      refine ⟨?_, hrec.2⟩
      intro e he
      rcases List.mem_cons.mp he with rfl | hmem
      · exact ⟨_, rfl⟩
      · exact hrec.1 e hmem

/-- Storage reads contribute nothing to the filtered list of writes. -/
theorem filter_isPut_of_gets (effs : List Effect)
    (h : ∀ e ∈ effs, ∃ k, e = Effect.storGet k) : List.filter isPut effs = [] := by
  refine List.filter_eq_nil_iff.mpr ?_
  intro e he
  obtain ⟨k, rfl⟩ := h e he
  simp [isPut]

/-- A successful run of GenerateOTPCredential performs exactly one storage
write, keyed by the otp/ prefix followed by the salted digest of the
returned OTP, whose value holds exactly the validated username and IP. -/
theorem GenerateOTPCredential_ok_spec (env : Env) (fuel n : Nat) (username ip : String) :
    ∀ otp effs n2, GenerateOTPCredential env fuel n username ip = (OTPOut.ok otp, effs, n2) →
      List.filter isPut effs =
        [Effect.storPut ("otp/" ++ env.saltID otp) { username := username, ip := ip }] := by
  intro otp effs n2 h
  simp only [GenerateOTPCredential, GenerateSaltedOTP] at h
  split at h
  · rename_i heqLoop
    split at h
    · rename_i o s effs2 n3 heq
      have hloop := otpFreeKeyLoop_spec env fuel (n + 1) (LoopOut.free o s) effs2 n3 heq
      have hs : s = env.saltID o := hloop.2 o s rfl
      simp only [otpWrite] at h
      split at h
      · simp at h
      · split at h
        · simp at h
        · simp only [Prod.mk.injEq] at h
          obtain ⟨ho, rfl, rfl⟩ := h
          cases ho
          rw [List.filter_append, List.filter_cons_of_neg (by simp [isPut]),
            filter_isPut_of_gets effs2 hloop.1, hs]
          rfl
    · simp at h
    · simp at h
  · simp only [otpWrite] at h
    split at h
    · simp at h
    · split at h
      · simp at h
      · simp only [Prod.mk.injEq] at h
        obtain ⟨ho, rfl, rfl⟩ := h
        cases ho
        rfl
  · simp only [otpWrite] at h
    split at h
    · simp at h
    · split at h
      · simp at h
      · simp only [Prod.mk.injEq] at h
        obtain ⟨ho, rfl, rfl⟩ := h
        cases ho
        rfl

/-- Effects of the write tail of GenerateOTPCredential: at most the single
Put of the entry keyed otp/otpSalted with the validated username and IP. -/
theorem otpWrite_effs_spec (env : Env) (otp otpSalted username ip : String) (n : Nat) :
    ∀ e ∈ (otpWrite env otp otpSalted username ip n).2.1,
      e = Effect.storPut ("otp/" ++ otpSalted) { username := username, ip := ip } := by
  intro e he
  simp only [otpWrite] at he
  split at he
  · cases he
  · split at he
    · rw [List.mem_singleton] at he; exact he
    · rw [List.mem_singleton] at he; exact he

/-- Every effect of GenerateOTPCredential is a storage read or a Put of an
entry under the otp/ namespace whose value is the validated username and
IP. -/
theorem GenerateOTPCredential_effs_spec (env : Env) (fuel n : Nat) (username ip : String) :
    ∀ e ∈ (GenerateOTPCredential env fuel n username ip).2.1,
      (∃ k, e = Effect.storGet k) ∨
      (∃ s2, e = Effect.storPut ("otp/" ++ s2) { username := username, ip := ip }) := by
  intro e he
  simp only [GenerateOTPCredential, GenerateSaltedOTP] at he
  split at he
  · split at he
    · rename_i o s effs2 n3 heq
      have hloop := otpFreeKeyLoop_spec env fuel (n + 1) (LoopOut.free o s) effs2 n3 heq
      rcases List.mem_append.mp he with hl | hr
      · rcases List.mem_cons.mp hl with rfl | hmem
        · exact Or.inl ⟨_, rfl⟩
        · exact Or.inl (hloop.1 e hmem)
      · exact Or.inr ⟨s, otpWrite_effs_spec env o s username ip n3 e hr⟩
    · rename_i e2 effs2 n3 heq
      have hloop := otpFreeKeyLoop_spec env fuel (n + 1) (LoopOut.getErr e2) effs2 n3 heq
      rcases List.mem_cons.mp he with rfl | hmem
      · exact Or.inl ⟨_, rfl⟩
      · exact Or.inl (hloop.1 e hmem)
    · rename_i effs2 n3 heq
      have hloop := otpFreeKeyLoop_spec env fuel (n + 1) LoopOut.fuelOut effs2 n3 heq
      rcases List.mem_cons.mp he with rfl | hmem
      · exact Or.inl ⟨_, rfl⟩
      · exact Or.inl (hloop.1 e hmem)
  · rcases List.mem_cons.mp he with rfl | hmem
    · exact Or.inl ⟨_, rfl⟩
    · exact Or.inr ⟨_, otpWrite_effs_spec env _ _ username ip _ e hmem⟩
  · rcases List.mem_cons.mp he with rfl | hmem
    · exact Or.inl ⟨_, rfl⟩
    · exact Or.inr ⟨_, otpWrite_effs_spec env _ _ username ip _ e hmem⟩

/-- Every effect of GenerateDynamicCredential is the host-key read, a
remote copy to the validated IP with the administrative username of the
role, or the remote install execution with the validated username and IP. -/
theorem GenerateDynamicCredential_effs_spec (env : Env) (role : sshRole)
    (username ip : String) (n : Nat) :
    ∀ e ∈ (GenerateDynamicCredential env role username ip n).2.1,
      e = Effect.storGet ("keys/" ++ role.keyName) ∨
      (∃ hk f c, e = Effect.scp role.adminUser ip role.port hk f c) ∨
      (∃ hk f, e = Effect.install role.adminUser f username ip role.port hk true) := by
  intro e he
  simp only [GenerateDynamicCredential, GenerateSaltedOTP] at he
  split at he
  · rw [List.mem_singleton] at he
    exact Or.inl he
  · rw [List.mem_singleton] at he
    exact Or.inl he
  · split at he
    · rw [List.mem_singleton] at he
      exact Or.inl he
    · split at he
      · rw [List.mem_singleton] at he
        exact Or.inl he
      · split at he
        · simp only [List.mem_cons, List.not_mem_nil, or_false] at he
          rcases he with rfl | rfl
          · exact Or.inl rfl
          · exact Or.inr (Or.inl ⟨_, _, _, rfl⟩)
        · split at he
          · simp only [List.mem_cons, List.not_mem_nil, or_false] at he
            rcases he with rfl | rfl | rfl
            · exact Or.inl rfl
            · exact Or.inr (Or.inl ⟨_, _, _, rfl⟩)
            · exact Or.inr (Or.inl ⟨_, _, _, rfl⟩)
          · split at he
            · simp only [List.mem_cons, List.not_mem_nil, or_false] at he
              rcases he with rfl | rfl | rfl | rfl
              · exact Or.inl rfl
              · exact Or.inr (Or.inl ⟨_, _, _, rfl⟩)
              · exact Or.inr (Or.inl ⟨_, _, _, rfl⟩)
              · exact Or.inr (Or.inr ⟨_, _, rfl⟩)
            · simp only [List.mem_cons, List.not_mem_nil, or_false] at he
              rcases he with rfl | rfl | rfl | rfl
              · exact Or.inl rfl
              · exact Or.inr (Or.inl ⟨_, _, _, rfl⟩)
              · exact Or.inr (Or.inl ⟨_, _, _, rfl⟩)
              · exact Or.inr (Or.inr ⟨_, _, rfl⟩)

/-- Setting the lease information changes only the lease fields of the
response. -/
theorem applyLease_fields (lr : LeaseLookup) (resp : SecretResponse) :
    (applyLease lr resp).secretType = resp.secretType ∧
    (applyLease lr resp).data = resp.data ∧
    (applyLease lr resp).internal = resp.internal := by
  simp only [applyLease]
  split
  · exact ⟨rfl, rfl, rfl⟩
  · exact ⟨rfl, rfl, rfl⟩

/-- C1: the claim states that every storage read error during the free-key
check of GenerateOTPCredential aborts the operation with an internal error
and that no otp/ entry is written, in particular when the very first Get of
the loop returns the error.  The code contradicts this on the first Get: in
the environment envGetFails, whose storage Get fails on every key, the
issuance nevertheless returns the OTP successfully and performs the storage
write, because the loop condition (err == nil AND entry != nil) is false on
a failed first Get and the error is never re-checked before the write. -/
theorem c1_first_read_error_write_proceeds :
    envGetFails.storGet ("otp/salt-uuid0") = Except.error ("disk") ∧
    GenerateOTPCredential envGetFails 5 0 ("deploy") ("10.0.0.5") =
      (OTPOut.ok ("uuid0"),
       [Effect.storGet ("otp/salt-uuid0"),
        Effect.storPut ("otp/salt-uuid0") { username := "deploy", ip := "10.0.0.5" }],
       1) :=
  ⟨rfl, rfl⟩

/-- C4: every successful run of GenerateOTPCredential performs exactly one
storage write, keyed otp/ followed by the salted digest of the OTP value it
returns, and the stored value is built from exactly the validated username
and IP; the raw OTP enters the key only through the salt collaborator and
does not enter the value at all. -/
theorem c4_otp_single_salted_write (env : Env) (fuel n : Nat) (username ip : String)
    (otp : String) (effs : List Effect) (n2 : Nat)
    (h : GenerateOTPCredential env fuel n username ip = (OTPOut.ok otp, effs, n2)) :
    List.filter isPut effs =
      [Effect.storPut ("otp/" ++ env.saltID otp) { username := username, ip := ip }] :=
  GenerateOTPCredential_ok_spec env fuel n username ip otp effs n2 h

/-- Witness for C4 on the demo environment: the successful issuance of OTP
uuid0 for deploy at 10.0.0.5 writes exactly the entry otp/salt-uuid0. -/
theorem c4_witness :
    List.filter isPut
        [Effect.storGet ("otp/salt-uuid0"),
         Effect.storPut ("otp/salt-uuid0") { username := "deploy", ip := "10.0.0.5" }] =
      [Effect.storPut ("otp/" ++ demoEnv.saltID ("uuid0"))
        { username := "deploy", ip := "10.0.0.5" }] :=
  c4_otp_single_salted_write demoEnv 5 0 ("deploy") ("10.0.0.5") ("uuid0")
    [Effect.storGet ("otp/salt-uuid0"),
     Effect.storPut ("otp/salt-uuid0") { username := "deploy", ip := "10.0.0.5" }] 1 rfl

/-- C2 (amended): for every request whose role resolves, whose username
resolves (the request carries a username, or the role has a default
username), and whose non-empty ip field does not parse as a valid address,
issuance returns the invalid-IP validation error. -/
theorem c2_invalid_ip_rejected_when_username_resolves (env : Env) (lr : LeaseLookup)
    (fuel : Nat) (req : CredsRequest) (role : sshRole)
    (hrole : req.role ≠ "") (hip : req.ip ≠ "")
    (hget : env.getRole req.role = Except.ok (some role))
    (husr : req.username ≠ "" ∨ role.defaultUser ≠ "")
    (hparse : env.parseIP req.ip = none) :
    pathCredsCreateWrite env lr fuel req =
      (WriteResult.userError ("Invalid IP " ++ sQuote ++ req.ip ++ sQuote),
       [Effect.roleLookup req.role]) := by
  rcases husr with h | h
  · simp only [pathCredsCreateWrite, pathCredsCreateCore, if_neg hrole, if_neg hip, hget,
      if_neg h, hparse]
  · by_cases h0 : req.username = ""
    · simp only [pathCredsCreateWrite, pathCredsCreateCore, if_neg hrole, if_neg hip, hget,
        if_pos h0, if_neg h, hparse]
    · simp only [pathCredsCreateWrite, pathCredsCreateCore, if_neg hrole, if_neg hip, hget,
        if_neg h0, hparse]

/-- Witness for C2 (amended) on the demo environment: the role web resolves,
the username u is given, and zzz does not parse, so the response is the
invalid-IP error. -/
theorem c2_witness :
    pathCredsCreateWrite demoEnv LeaseLookup.notConfigured 5
        { role := "web", username := "u", ip := "zzz" } =
      (WriteResult.userError ("Invalid IP " ++ sQuote ++ "zzz" ++ sQuote),
       [Effect.roleLookup ("web")]) :=
  c2_invalid_ip_rejected_when_username_resolves demoEnv LeaseLookup.notConfigured 5
    { role := "web", username := "u", ip := "zzz" } roleWeb
    (by decide) (by decide) rfl (Or.inl (by decide)) rfl

/-- Counterexample to C2 as stated: on a role without a default username and
a request without a username, an unparseable ip (zzz, rejected by the
parseIP collaborator) does not produce the invalid-IP error — the username
check runs first and its error is returned instead. -/
theorem c2_counterexample :
    demoEnv.parseIP ("zzz") = none ∧
    pathCredsCreateWrite demoEnv LeaseLookup.notConfigured 5
        { role := "nodef", username := "", ip := "zzz" } =
      (WriteResult.userError ("No default username registered. Use " ++ sQuote ++
          "username" ++ sQuote ++ " option"),
       [Effect.roleLookup ("nodef")]) ∧
    (pathCredsCreateWrite demoEnv LeaseLookup.notConfigured 5
        { role := "nodef", username := "", ip := "zzz" }).1 ≠
      WriteResult.userError ("Invalid IP " ++ sQuote ++ "zzz" ++ sQuote) :=
  ⟨rfl, rfl, by decide⟩

/-- C3: every successful issuance carries the configured lease duration and
lease-max as duration and grace period when the lease lookup finds a
policy, and exactly 10 minutes and 2 minutes when the lookup finds nothing
or fails; moreover the lookup outcome never decides between success and
failure of the issuance and never changes the response data. -/
theorem c3_lease_defaulting (env : Env) (lr : LeaseLookup) (fuel : Nat)
    (req : CredsRequest) (resp : SecretResponse)
    (h : (pathCredsCreateWrite env lr fuel req).1 = WriteResult.success resp) :
    (∀ l m, lr = LeaseLookup.found l m → resp.lease = l ∧ resp.leaseGracePeriod = m) ∧
    (lr = LeaseLookup.notConfigured →
      resp.lease = 10 * timeMinute ∧ resp.leaseGracePeriod = 2 * timeMinute) ∧
    (∀ e, lr = LeaseLookup.lookupError e →
      resp.lease = 10 * timeMinute ∧ resp.leaseGracePeriod = 2 * timeMinute) ∧
    (∀ lr2, ∃ resp2,
      (pathCredsCreateWrite env lr2 fuel req).1 = WriteResult.success resp2 ∧
      resp2.data = resp.data ∧ resp2.internal = resp.internal) := by
  rcases hcore : pathCredsCreateCore env fuel req with ⟨res, effs0⟩
  cases res with
  | userError msg => simp only [pathCredsCreateWrite, hcore] at h; cases h
  | fatal msg => simp only [pathCredsCreateWrite, hcore] at h; cases h
  | fuelOut => simp only [pathCredsCreateWrite, hcore] at h; cases h
  | success resp0 =>
    simp only [pathCredsCreateWrite, hcore, WriteResult.success.injEq] at h
    subst h
    refine ⟨?_, ?_, ?_, ?_⟩
    · intro l m hl; subst hl; exact ⟨rfl, rfl⟩
    · intro hl; subst hl; exact ⟨rfl, rfl⟩
    · intro e hl; subst hl; exact ⟨rfl, rfl⟩
    · intro lr2
      refine ⟨applyLease lr2 resp0, ?_, ?_, ?_⟩
      · simp only [pathCredsCreateWrite, hcore]
      · rw [(applyLease_fields lr2 resp0).2.1, (applyLease_fields lr resp0).2.1]
      · rw [(applyLease_fields lr2 resp0).2.2, (applyLease_fields lr resp0).2.2]

/-- Witness for C3 on the demo environment: with a configured policy of
duration 300 and maximum 60 the issued secret carries those values, and
with a failing lookup the same issuance still succeeds and carries the
10-minute and 2-minute defaults. -/
theorem c3_witness :
    (∃ resp, (pathCredsCreateWrite demoEnv (LeaseLookup.found 300 60) 5
        { role := "web", username := "", ip := "10.0.0.5" }).1 =
          WriteResult.success resp ∧ resp.lease = 300 ∧ resp.leaseGracePeriod = 60) ∧
    (∃ resp, (pathCredsCreateWrite demoEnv (LeaseLookup.lookupError ("boom")) 5
        { role := "web", username := "", ip := "10.0.0.5" }).1 =
          WriteResult.success resp ∧
        resp.lease = 10 * timeMinute ∧ resp.leaseGracePeriod = 2 * timeMinute) := by
  constructor
  · refine ⟨_, rfl, ?_⟩
    exact (c3_lease_defaulting demoEnv (LeaseLookup.found 300 60) 5
      { role := "web", username := "", ip := "10.0.0.5" } _ rfl).1 300 60 rfl
  · refine ⟨_, rfl, ?_⟩
    exact (c3_lease_defaulting demoEnv (LeaseLookup.lookupError ("boom")) 5
      { role := "web", username := "", ip := "10.0.0.5" } _ rfl).2.2.1 ("boom") rfl

/-- C5: in every dynamic issuance the remote install execution appears in
the trace only when both remote copies succeeded, immediately after them;
and when the public-key upload fails, the operation stops with the upload
error after exactly the host-key read and the failed upload, with no script
upload, no install execution, and no further (rollback) step. -/
theorem c5_install_only_after_uploads (env : Env) (role : sshRole)
    (username ip : String) (n : Nat) :
    (∀ e ∈ (GenerateDynamicCredential env role username ip n).2.1, isInstall e = true →
      ∃ entry hk pub priv,
        env.storGet ("keys/" ++ role.keyName) = Except.ok (some entry) ∧
        entry.hostKeyDecode = Except.ok hk ∧
        env.generateRSAKeys role.keyBits = Except.ok (pub, priv) ∧
        env.scpUpload role.adminUser ip role.port hk (env.saltID (env.uuidAt n)) pub = none ∧
        env.scpUpload role.adminUser ip role.port hk (env.saltID (env.uuidAt n) ++ ".sh")
          role.installScript = none ∧
        (GenerateDynamicCredential env role username ip n).2.1 =
          [Effect.storGet ("keys/" ++ role.keyName),
           Effect.scp role.adminUser ip role.port hk (env.saltID (env.uuidAt n)) pub,
           Effect.scp role.adminUser ip role.port hk (env.saltID (env.uuidAt n) ++ ".sh")
             role.installScript,
           Effect.install role.adminUser (env.saltID (env.uuidAt n)) username ip role.port
             hk true]) ∧
    (∀ entry hk pub priv e2,
      env.storGet ("keys/" ++ role.keyName) = Except.ok (some entry) →
      entry.hostKeyDecode = Except.ok hk →
      env.generateRSAKeys role.keyBits = Except.ok (pub, priv) →
      env.scpUpload role.adminUser ip role.port hk (env.saltID (env.uuidAt n)) pub =
        some e2 →
      GenerateDynamicCredential env role username ip n =
        (DynOut.err ("error uploading public key: " ++ e2),
         [Effect.storGet ("keys/" ++ role.keyName),
          Effect.scp role.adminUser ip role.port hk (env.saltID (env.uuidAt n)) pub],
         n + 1)) := by
  constructor
  · intro e he hinst
    cases hget : env.storGet ("keys/" ++ role.keyName) with
    | error e1 =>
      simp only [GenerateDynamicCredential, GenerateSaltedOTP, hget,
        List.mem_singleton] at he
      subst he; simp [isInstall] at hinst
    | ok o =>
      cases o with
      | none =>
        simp only [GenerateDynamicCredential, GenerateSaltedOTP, hget,
          List.mem_singleton] at he
        subst he; simp [isInstall] at hinst
      | some entry =>
        cases hdec : entry.hostKeyDecode with
        | error e1 =>
          simp only [GenerateDynamicCredential, GenerateSaltedOTP, hget, hdec,
            List.mem_singleton] at he
          subst he; simp [isInstall] at hinst
        | ok hk =>
          cases hkeys : env.generateRSAKeys role.keyBits with
          | error e1 =>
            simp only [GenerateDynamicCredential, GenerateSaltedOTP, hget, hdec, hkeys,
              List.mem_singleton] at he
            subst he; simp [isInstall] at hinst
          | ok pp =>
            obtain ⟨pub, priv⟩ := pp
            cases hscp1 : env.scpUpload role.adminUser ip role.port hk
                (env.saltID (env.uuidAt n)) pub with
            | some e1 =>
              simp only [GenerateDynamicCredential, GenerateSaltedOTP, hget, hdec, hkeys,
                hscp1, List.mem_cons, List.not_mem_nil, or_false] at he
              rcases he with rfl | rfl <;> simp [isInstall] at hinst
            | none =>
              cases hscp2 : env.scpUpload role.adminUser ip role.port hk
                  (env.saltID (env.uuidAt n) ++ ".sh") role.installScript with
              | some e1 =>
                simp only [GenerateDynamicCredential, GenerateSaltedOTP, hget, hdec,
                  hkeys, hscp1, hscp2, List.mem_cons, List.not_mem_nil, or_false] at he
                rcases he with rfl | rfl | rfl <;> simp [isInstall] at hinst
              | none =>
                refine ⟨entry, hk, pub, priv, ?_, ?_, ?_, ?_, ?_, ?_⟩
                · rfl
                · exact hdec
                · rfl
                · exact hscp1
                · exact hscp2
                cases hins : env.installPublicKeyInTarget role.adminUser
                    (env.saltID (env.uuidAt n)) username ip role.port hk true with
                | some e1 =>
                  simp only [GenerateDynamicCredential, GenerateSaltedOTP, hget, hdec,
                    hkeys, hscp1, hscp2, hins]
                | none =>
                  simp only [GenerateDynamicCredential, GenerateSaltedOTP, hget, hdec,
                    hkeys, hscp1, hscp2, hins]
  · intro entry hk pub priv e2 hget hdec hkeys hscp
    simp only [GenerateDynamicCredential, GenerateSaltedOTP, hget, hdec, hkeys, hscp]

/-- Witness for C5 on the environment whose public-key upload fails: the
dynamic issuance stops with the upload error after exactly the host-key
read and the failed upload. -/
theorem c5_witness :
    GenerateDynamicCredential envScpFails roleDyn ("deploy") ("10.0.0.5") 0 =
      (DynOut.err ("error uploading public key: boom"),
       [Effect.storGet ("keys/hostkey"),
        Effect.scp ("root") ("10.0.0.5") 22 ("HOSTKEY") ("salt-uuid0") ("PUB")],
       1) :=
  (c5_install_only_after_uploads envScpFails roleDyn ("deploy") ("10.0.0.5") 0).2
    { hostKeyDecode := Except.ok ("HOSTKEY") } ("HOSTKEY") ("PUB") ("PRIV") ("boom")
    rfl rfl rfl rfl

/-- Lemma: a user-error outcome of the core can only carry the empty trace
or the single role lookup. -/
theorem core_userError_effs (env : Env) (fuel : Nat) (req : CredsRequest)
    (msg : String) (effs : List Effect)
    (h : pathCredsCreateCore env fuel req = (WriteResult.userError msg, effs)) :
    effs = [] ∨ effs = [Effect.roleLookup req.role] := by
  simp only [pathCredsCreateCore] at h
  repeat' split at h
  all_goals simp only [Prod.mk.injEq] at h
  all_goals first
    | exact Or.inl h.2.symm
    | exact Or.inr h.2.symm
    | exact (nomatch h.1)

/-- C6: every validation failure returns a structured user-error response
whose trace holds no storage write, no remote copy, and no remote install
(at most the storage-backed role lookup); and an empty role or an empty ip
is rejected before any collaborator is contacted, with an empty trace. -/
theorem c6_validation_failures_effect_free (env : Env) (lr : LeaseLookup) (fuel : Nat)
    (req : CredsRequest) :
    (∀ msg effs, pathCredsCreateWrite env lr fuel req = (WriteResult.userError msg, effs) →
      (effs = [] ∨ effs = [Effect.roleLookup req.role]) ∧
      ∀ e ∈ effs, isPut e = false ∧ isScp e = false ∧ isInstall e = false) ∧
    (req.role = "" → pathCredsCreateWrite env lr fuel req =
      (WriteResult.userError ("Missing role"), [])) ∧
    (req.role ≠ "" → req.ip = "" → pathCredsCreateWrite env lr fuel req =
      (WriteResult.userError ("Missing ip"), [])) := by
  refine ⟨?_, ?_, ?_⟩
  · intro msg effs h
    rcases hcore : pathCredsCreateCore env fuel req with ⟨res, effs0⟩
    cases res with
    | success resp0 => simp only [pathCredsCreateWrite, hcore, Prod.mk.injEq] at h
                       exact absurd h.1 (by simp)
    | fatal m0 => simp only [pathCredsCreateWrite, hcore, Prod.mk.injEq] at h
                  exact absurd h.1 (by simp)
    | fuelOut => simp only [pathCredsCreateWrite, hcore, Prod.mk.injEq] at h
                 exact absurd h.1 (by simp)
    | userError m0 =>
      simp only [pathCredsCreateWrite, hcore, Prod.mk.injEq, WriteResult.userError.injEq] at h
      obtain ⟨h1, h2⟩ := h
      subst h1 h2
      have hshape := core_userError_effs env fuel req _ effs0 hcore
      refine ⟨hshape, ?_⟩
      intro e he
      rcases hshape with rfl | rfl
      · cases he
      · rw [List.mem_singleton] at he
        subst he
        exact ⟨rfl, rfl, rfl⟩
  · intro h
    simp only [pathCredsCreateWrite, pathCredsCreateCore, if_pos h]
  · intro h1 h2
    simp only [pathCredsCreateWrite, pathCredsCreateCore, if_neg h1, if_pos h2]

/-- Witness for C6: a request with an empty role is rejected with the
missing-role user error and an empty effect trace. -/
theorem c6_witness :
    pathCredsCreateWrite demoEnv LeaseLookup.notConfigured 5
        { role := "", username := "", ip := "10.0.0.5" } =
      (WriteResult.userError ("Missing role"), []) :=
  (c6_validation_failures_effect_free demoEnv LeaseLookup.notConfigured 5
      { role := "", username := "", ip := "10.0.0.5" }).2.1 rfl

/-- Lemma: the username-defaulting step yields the request username when it
is non-empty and the default username of the role otherwise. -/
theorem usernameOpt_eq (ru du u : String)
    (h : (if ru = "" then (if du = "" then none else some du) else some ru) = some u) :
    u = if ru = "" then du else ru := by
  by_cases h1 : ru = ""
  · rw [if_pos h1] at h ⊢
    by_cases h2 : du = ""
    · rw [if_pos h2] at h; cases h
    · rw [if_neg h2] at h; injection h with h; exact h.symm
  · rw [if_neg h1] at h ⊢; injection h with h; exact h.symm

/-- C7: every successful issuance returns, for an OTP role, the public data
key_type otp and the OTP string with internal data holding the same OTP;
and for a dynamic role, the public data private key and key_type dynamic
with internal data admin_user, username, ip, host_key_name,
dynamic_public_key, port, and install_script drawn from the role, the
validated request, and the generated public key. -/
theorem c7_response_shape (env : Env) (lr : LeaseLookup) (fuel : Nat) (req : CredsRequest)
    (role : sshRole) (resp : SecretResponse) (effs : List Effect)
    (hget : env.getRole req.role = Except.ok (some role))
    (h : pathCredsCreateWrite env lr fuel req = (WriteResult.success resp, effs)) :
    (role.keyType = KeyTypeOTP → ∃ otp,
      resp.data = [("key_type", FieldVal.str KeyTypeOTP), ("key", FieldVal.str otp)] ∧
      resp.internal = [("otp", FieldVal.str otp)]) ∧
    (role.keyType = KeyTypeDynamic → ∃ pub priv ip2,
      env.parseIP req.ip = some ip2 ∧
      resp.data = [("key", FieldVal.str priv), ("key_type", FieldVal.str KeyTypeDynamic)] ∧
      resp.internal =
        [("admin_user", FieldVal.str role.adminUser),
         ("username",
           FieldVal.str (if req.username = "" then role.defaultUser else req.username)),
         ("ip", FieldVal.str ip2),
         ("host_key_name", FieldVal.str role.keyName),
         ("dynamic_public_key", FieldVal.str pub),
         ("port", FieldVal.nat role.port),
         ("install_script", FieldVal.str role.installScript)]) := by
  rcases hcore : pathCredsCreateCore env fuel req with ⟨res, effs0⟩
  cases res with
  | userError m0 =>
    simp only [pathCredsCreateWrite, hcore, Prod.mk.injEq] at h
    exact (nomatch h.1)
  | fatal m0 =>
    simp only [pathCredsCreateWrite, hcore, Prod.mk.injEq] at h
    exact (nomatch h.1)
  | fuelOut =>
    simp only [pathCredsCreateWrite, hcore, Prod.mk.injEq] at h
    exact (nomatch h.1)
  | success resp0 =>
    simp only [pathCredsCreateWrite, hcore, Prod.mk.injEq,
      WriteResult.success.injEq] at h
    obtain ⟨hresp, heffs⟩ := h
    by_cases hrole : req.role = ""
    · simp only [pathCredsCreateCore, if_pos hrole, Prod.mk.injEq] at hcore
      exact (nomatch hcore.1)
    · by_cases hip0 : req.ip = ""
      · simp only [pathCredsCreateCore, if_neg hrole, if_pos hip0, Prod.mk.injEq] at hcore
        exact (nomatch hcore.1)
      · simp only [pathCredsCreateCore, if_neg hrole, if_neg hip0, hget] at hcore
        cases husr : (if req.username = "" then
            (if role.defaultUser = "" then none else some role.defaultUser)
          else some req.username) with
        | none =>
          simp only [husr, Prod.mk.injEq] at hcore
          exact (nomatch hcore.1)
        | some u =>
          simp only [husr] at hcore
          cases hp : env.parseIP req.ip with
          | none =>
            simp only [hp, Prod.mk.injEq] at hcore
            exact (nomatch hcore.1)
          | some ip2 =>
            simp only [hp] at hcore
            cases hc : env.cidrContainsIP ip2 role.cidrList with
            | error e1 =>
              simp only [hc, Prod.mk.injEq] at hcore
              exact (nomatch hcore.1)
            | ok b =>
              cases b with
              | false =>
                simp only [hc, Prod.mk.injEq] at hcore
                exact (nomatch hcore.1)
              | true =>
                simp only [hc] at hcore
                by_cases hkt : role.keyType = KeyTypeOTP
                · rw [if_pos hkt] at hcore
                  rcases hotp : GenerateOTPCredential env fuel 0 u ip2 with ⟨o, effsX, nX⟩
                  simp only [hotp] at hcore
                  cases o with
                  | err e1 =>
                    simp only [Prod.mk.injEq] at hcore
                    exact (nomatch hcore.1)
                  | fuelOut =>
                    simp only [Prod.mk.injEq] at hcore
                    exact (nomatch hcore.1)
                  | ok otp =>
                    simp only [Prod.mk.injEq, WriteResult.success.injEq] at hcore
                    obtain ⟨h1, h2⟩ := hcore
                    subst h1
                    constructor
                    · intro _
                      refine ⟨otp, ?_, ?_⟩
                      · rw [← hresp, (applyLease_fields lr _).2.1, hkt]
                      · rw [← hresp, (applyLease_fields lr _).2.2]
                    · intro hkd
                      rw [hkt] at hkd
                      exact absurd hkd (by decide)
                · rw [if_neg hkt] at hcore
                  by_cases hkd : role.keyType = KeyTypeDynamic
                  · rw [if_pos hkd] at hcore
                    rcases hdyn : GenerateDynamicCredential env role u ip2 0 with ⟨o, effsX, nX⟩
                    simp only [hdyn] at hcore
                    cases o with
                    | err e1 =>
                      simp only [Prod.mk.injEq] at hcore
                      exact (nomatch hcore.1)
                    | ok pub priv =>
                      simp only [Prod.mk.injEq, WriteResult.success.injEq] at hcore
                      obtain ⟨h1, h2⟩ := hcore
                      subst h1
                      constructor
                      · intro hkt2
                        rw [hkd] at hkt2
                        exact absurd hkt2 (by decide)
                      · intro _
                        refine ⟨pub, priv, ip2, rfl, ?_, ?_⟩
                        · rw [← hresp, (applyLease_fields lr _).2.1, hkd]
                        · rw [← hresp, (applyLease_fields lr _).2.2,
                            ← usernameOpt_eq req.username role.defaultUser u husr]
                  · rw [if_neg hkd] at hcore
                    simp only [Prod.mk.injEq] at hcore
                    exact (nomatch hcore.1)

/-- Witness for C7 on the demo environment: the successful OTP issuance for
role web returns key_type otp with the OTP string in both the public and the
internal data. -/
theorem c7_witness :
    ∃ otp,
      ({ secretType := SecretOTPType,
         data := [("key_type", FieldVal.str ("otp")), ("key", FieldVal.str ("uuid0"))],
         internal := [("otp", FieldVal.str ("uuid0"))],
         lease := 10 * timeMinute,
         leaseGracePeriod := 2 * timeMinute } : SecretResponse).data =
        [("key_type", FieldVal.str KeyTypeOTP), ("key", FieldVal.str otp)] ∧
      ({ secretType := SecretOTPType,
         data := [("key_type", FieldVal.str ("otp")), ("key", FieldVal.str ("uuid0"))],
         internal := [("otp", FieldVal.str ("uuid0"))],
         lease := 10 * timeMinute,
         leaseGracePeriod := 2 * timeMinute } : SecretResponse).internal =
        [("otp", FieldVal.str otp)] :=
  (c7_response_shape demoEnv LeaseLookup.notConfigured 5
      { role := "web", username := "", ip := "10.0.0.5" } roleWeb
      { secretType := SecretOTPType,
        data := [("key_type", FieldVal.str ("otp")), ("key", FieldVal.str ("uuid0"))],
        internal := [("otp", FieldVal.str ("uuid0"))],
        lease := 10 * timeMinute, leaseGracePeriod := 2 * timeMinute }
      [Effect.roleLookup ("web"), Effect.storGet ("otp/salt-uuid0"),
       Effect.storPut ("otp/salt-uuid0") { username := "deploy", ip := "10.0.0.5" },
       Effect.leaseLookup]
      rfl rfl).1 rfl

/-- C8: a request that passes every validation step but whose role has a key
type that is neither otp nor dynamic fails with the fatal internal error
key type unknown (not a user-error response), with no credential effect
beyond the role lookup. -/
theorem c8_unknown_key_type_fatal (env : Env) (lr : LeaseLookup) (fuel : Nat)
    (req : CredsRequest) (role : sshRole) (ip2 : String)
    (hrole : req.role ≠ "") (hip : req.ip ≠ "")
    (hget : env.getRole req.role = Except.ok (some role))
    (husr : req.username ≠ "" ∨ role.defaultUser ≠ "")
    (hparse : env.parseIP req.ip = some ip2)
    (hcidr : env.cidrContainsIP ip2 role.cidrList = Except.ok true)
    (hko : role.keyType ≠ KeyTypeOTP) (hkd : role.keyType ≠ KeyTypeDynamic) :
    pathCredsCreateWrite env lr fuel req =
      (WriteResult.fatal ("key type unknown"), [Effect.roleLookup req.role]) := by
  rcases husr with h | h
  · simp only [pathCredsCreateWrite, pathCredsCreateCore, if_neg hrole, if_neg hip, hget,
      if_neg h, hparse, hcidr, if_neg hko, if_neg hkd]
  · by_cases h0 : req.username = ""
    · simp only [pathCredsCreateWrite, pathCredsCreateCore, if_neg hrole, if_neg hip, hget,
        if_pos h0, if_neg h, hparse, hcidr, if_neg hko, if_neg hkd]
    · simp only [pathCredsCreateWrite, pathCredsCreateCore, if_neg hrole, if_neg hip, hget,
        if_neg h0, hparse, hcidr, if_neg hko, if_neg hkd]

/-- Witness for C8 on the demo environment: the role weird passes validation
for ip 10.0.0.5 but its key type weird is rejected as a fatal error. -/
theorem c8_witness :
    pathCredsCreateWrite demoEnv LeaseLookup.notConfigured 5
        { role := "weird", username := "", ip := "10.0.0.5" } =
      (WriteResult.fatal ("key type unknown"), [Effect.roleLookup ("weird")]) :=
  c8_unknown_key_type_fatal demoEnv LeaseLookup.notConfigured 5
    { role := "weird", username := "", ip := "10.0.0.5" } roleWeird ("10.0.0.5")
    (by decide) (by decide) rfl (Or.inr (by decide)) rfl rfl (by decide) (by decide)

/-- Lemma: when the input ip parses to the canonical form ip2, every effect
of the issuance core is the role lookup, a storage read, a storage write
whose value carries ip2, a remote copy to ip2, or a remote install at ip2. -/
theorem core_effs_ip (env : Env) (fuel : Nat) (req : CredsRequest) (ip2 : String)
    (hparse : env.parseIP req.ip = some ip2) :
    ∀ e ∈ (pathCredsCreateCore env fuel req).2,
      e = Effect.roleLookup req.role ∨
      (∃ k, e = Effect.storGet k) ∨
      (∃ k u, e = Effect.storPut k { username := u, ip := ip2 }) ∨
      (∃ a p hk f c, e = Effect.scp a ip2 p hk f c) ∨
      (∃ a f u p hk, e = Effect.install a f u ip2 p hk true) := by
  intro e he
  by_cases hrole : req.role = ""
  · simp only [pathCredsCreateCore, if_pos hrole] at he
    cases he
  by_cases hip0 : req.ip = ""
  · simp only [pathCredsCreateCore, if_neg hrole, if_pos hip0] at he
    cases he
  cases hg : env.getRole req.role with
  | error e1 =>
    simp only [pathCredsCreateCore, if_neg hrole, if_neg hip0, hg,
      List.mem_singleton] at he
    exact Or.inl he
  | ok o =>
    cases o with
    | none =>
      simp only [pathCredsCreateCore, if_neg hrole, if_neg hip0, hg,
        List.mem_singleton] at he
      exact Or.inl he
    | some role =>
      simp only [pathCredsCreateCore, if_neg hrole, if_neg hip0, hg] at he
      cases husr : (if req.username = "" then
          (if role.defaultUser = "" then none else some role.defaultUser)
        else some req.username) with
      | none =>
        simp only [husr, List.mem_singleton] at he
        exact Or.inl he
      | some u =>
        simp only [husr, hparse] at he
        cases hc : env.cidrContainsIP ip2 role.cidrList with
        | error e1 =>
          simp only [hc, List.mem_singleton] at he
          exact Or.inl he
        | ok b =>
          cases b with
          | false =>
            simp only [hc, List.mem_singleton] at he
            exact Or.inl he
          | true =>
            simp only [hc] at he
            by_cases hkt : role.keyType = KeyTypeOTP
            · rw [if_pos hkt] at he
              rcases hotp : GenerateOTPCredential env fuel 0 u ip2 with ⟨o2, effsX, nX⟩
              simp only [hotp] at he
              cases o2 <;>
                · rcases List.mem_cons.mp he with rfl | hmem
                  · exact Or.inl rfl
                  · rcases GenerateOTPCredential_effs_spec env fuel 0 u ip2 e
                        (by rw [hotp]; exact hmem) with ⟨k, rfl⟩ | ⟨s2, rfl⟩
                    · exact Or.inr (Or.inl ⟨k, rfl⟩)
                    · exact Or.inr (Or.inr (Or.inl ⟨"otp/" ++ s2, u, rfl⟩))
            · rw [if_neg hkt] at he
              by_cases hkd : role.keyType = KeyTypeDynamic
              · rw [if_pos hkd] at he
                rcases hdynr : GenerateDynamicCredential env role u ip2 0 with ⟨o2, effsX, nX⟩
                simp only [hdynr] at he
                cases o2 <;>
                  · rcases List.mem_cons.mp he with rfl | hmem
                    · exact Or.inl rfl
                    · rcases GenerateDynamicCredential_effs_spec env role u ip2 0 e
                          (by rw [hdynr]; exact hmem) with
                        rfl | ⟨hk2, f2, c2, rfl⟩ | ⟨hk2, f2, rfl⟩
                      · exact Or.inr (Or.inl ⟨_, rfl⟩)
                      · exact Or.inr (Or.inr (Or.inr (Or.inl ⟨_, _, _, _, _, rfl⟩)))
                      · exact Or.inr (Or.inr (Or.inr (Or.inr ⟨_, _, _, _, _, rfl⟩)))
              · rw [if_neg hkd] at he
                rw [List.mem_singleton] at he
                exact Or.inl he

/-- Lemma: a successful core response of the dynamic secret type carries the
canonical ip in its internal data. -/
theorem core_success_dynamic_ip (env : Env) (fuel : Nat) (req : CredsRequest)
    (ip2 : String) (resp0 : SecretResponse) (effs0 : List Effect)
    (hparse : env.parseIP req.ip = some ip2)
    (hcore : pathCredsCreateCore env fuel req = (WriteResult.success resp0, effs0))
    (hdyn : resp0.secretType = SecretDynamicKeyType) :
    ("ip", FieldVal.str ip2) ∈ resp0.internal := by
  by_cases hrole : req.role = ""
  · simp only [pathCredsCreateCore, if_pos hrole, Prod.mk.injEq] at hcore
    exact (nomatch hcore.1)
  by_cases hip0 : req.ip = ""
  · simp only [pathCredsCreateCore, if_neg hrole, if_pos hip0, Prod.mk.injEq] at hcore
    exact (nomatch hcore.1)
  cases hg : env.getRole req.role with
  | error e1 =>
    simp only [pathCredsCreateCore, if_neg hrole, if_neg hip0, hg, Prod.mk.injEq] at hcore
    exact (nomatch hcore.1)
  | ok o =>
    cases o with
    | none =>
      simp only [pathCredsCreateCore, if_neg hrole, if_neg hip0, hg, Prod.mk.injEq] at hcore
      exact (nomatch hcore.1)
    | some role =>
      simp only [pathCredsCreateCore, if_neg hrole, if_neg hip0, hg] at hcore
      cases husr : (if req.username = "" then
          (if role.defaultUser = "" then none else some role.defaultUser)
        else some req.username) with
      | none =>
        simp only [husr, Prod.mk.injEq] at hcore
        exact (nomatch hcore.1)
      | some u =>
        simp only [husr, hparse] at hcore
        cases hc : env.cidrContainsIP ip2 role.cidrList with
        | error e1 =>
          simp only [hc, Prod.mk.injEq] at hcore
          exact (nomatch hcore.1)
        | ok b =>
          cases b with
          | false =>
            simp only [hc, Prod.mk.injEq] at hcore
            exact (nomatch hcore.1)
          | true =>
            simp only [hc] at hcore
            by_cases hkt : role.keyType = KeyTypeOTP
            · rw [if_pos hkt] at hcore
              rcases hotp : GenerateOTPCredential env fuel 0 u ip2 with ⟨o2, effsX, nX⟩
              simp only [hotp] at hcore
              cases o2 with
              | err e1 =>
                simp only [Prod.mk.injEq] at hcore
                exact (nomatch hcore.1)
              | fuelOut =>
                simp only [Prod.mk.injEq] at hcore
                exact (nomatch hcore.1)
              | ok otp =>
                simp only [Prod.mk.injEq, WriteResult.success.injEq] at hcore
                obtain ⟨h1, h2⟩ := hcore
                subst h1
                simp [SecretOTPType, SecretDynamicKeyType] at hdyn
            · rw [if_neg hkt] at hcore
              by_cases hkd : role.keyType = KeyTypeDynamic
              · rw [if_pos hkd] at hcore
                rcases hdynr : GenerateDynamicCredential env role u ip2 0 with ⟨o2, effsX, nX⟩
                simp only [hdynr] at hcore
                cases o2 with
                | err e1 =>
                  simp only [Prod.mk.injEq] at hcore
                  exact (nomatch hcore.1)
                | ok pub priv =>
                  simp only [Prod.mk.injEq, WriteResult.success.injEq] at hcore
                  obtain ⟨h1, h2⟩ := hcore
                  subst h1
                  simp
              · rw [if_neg hkd] at hcore
                simp only [Prod.mk.injEq] at hcore
                exact (nomatch hcore.1)

/-- C9: when the input ip parses to the canonical form ip2, every value the
issuance passes downstream carries ip2 — every stored OTP entry value,
every remote-copy target, every remote-install target, and the ip field of
the internal data of a successful dynamic response. -/
theorem c9_canonical_ip_downstream (env : Env) (lr : LeaseLookup) (fuel : Nat)
    (req : CredsRequest) (ip2 : String)
    (hparse : env.parseIP req.ip = some ip2) :
    (∀ k v, Effect.storPut k v ∈ (pathCredsCreateWrite env lr fuel req).2 → v.ip = ip2) ∧
    (∀ a i p hk f c,
      Effect.scp a i p hk f c ∈ (pathCredsCreateWrite env lr fuel req).2 → i = ip2) ∧
    (∀ a f u i p hk fl,
      Effect.install a f u i p hk fl ∈ (pathCredsCreateWrite env lr fuel req).2 →
        i = ip2) ∧
    (∀ resp, (pathCredsCreateWrite env lr fuel req).1 = WriteResult.success resp →
      resp.secretType = SecretDynamicKeyType → ("ip", FieldVal.str ip2) ∈ resp.internal) := by
  have htr : ∀ e, e ∈ (pathCredsCreateWrite env lr fuel req).2 →
      e = Effect.leaseLookup ∨ e ∈ (pathCredsCreateCore env fuel req).2 := by
    intro e he
    rcases hcore : pathCredsCreateCore env fuel req with ⟨res, effs0⟩
    cases res with
    | success resp0 =>
      simp only [pathCredsCreateWrite, hcore] at he
      rcases List.mem_append.mp he with h1 | h2
      · right; exact h1
      · left; exact List.mem_singleton.mp h2
    | userError m0 =>
      simp only [pathCredsCreateWrite, hcore] at he
      right; exact he
    | fatal m0 =>
      simp only [pathCredsCreateWrite, hcore] at he
      right; exact he
    | fuelOut =>
      simp only [pathCredsCreateWrite, hcore] at he
      right; exact he
  refine ⟨?_, ?_, ?_, ?_⟩
  · intro k v hmem
    rcases htr _ hmem with heq | hcmem
    · exact (nomatch heq)
    · rcases core_effs_ip env fuel req ip2 hparse _ hcmem with
        heq | ⟨k2, heq⟩ | ⟨k2, u2, heq⟩ | ⟨a2, p2, hk2, f2, c2, heq⟩ |
        ⟨a2, f2, u2, p2, hk2, heq⟩
      · exact (nomatch heq)
      · exact (nomatch heq)
      · simp only [Effect.storPut.injEq] at heq
        rw [heq.2]
      · exact (nomatch heq)
      · exact (nomatch heq)
  · intro a i p hk f c hmem
    rcases htr _ hmem with heq | hcmem
    · exact (nomatch heq)
    · rcases core_effs_ip env fuel req ip2 hparse _ hcmem with
        heq | ⟨k2, heq⟩ | ⟨k2, u2, heq⟩ | ⟨a2, p2, hk2, f2, c2, heq⟩ |
        ⟨a2, f2, u2, p2, hk2, heq⟩
      · exact (nomatch heq)
      · exact (nomatch heq)
      · exact (nomatch heq)
      · simp only [Effect.scp.injEq] at heq
        exact heq.2.1
      · exact (nomatch heq)
  · intro a f u i p hk fl hmem
    rcases htr _ hmem with heq | hcmem
    · exact (nomatch heq)
    · rcases core_effs_ip env fuel req ip2 hparse _ hcmem with
        heq | ⟨k2, heq⟩ | ⟨k2, u2, heq⟩ | ⟨a2, p2, hk2, f2, c2, heq⟩ |
        ⟨a2, f2, u2, p2, hk2, heq⟩
      · exact (nomatch heq)
      · exact (nomatch heq)
      · exact (nomatch heq)
      · exact (nomatch heq)
      · simp only [Effect.install.injEq] at heq
        exact heq.2.2.2.1
  · intro resp hres hsec
    rcases hcore : pathCredsCreateCore env fuel req with ⟨res, effs0⟩
    cases res with
    | userError m0 =>
      simp only [pathCredsCreateWrite, hcore] at hres
      exact (nomatch hres)
    | fatal m0 =>
      simp only [pathCredsCreateWrite, hcore] at hres
      exact (nomatch hres)
    | fuelOut =>
      simp only [pathCredsCreateWrite, hcore] at hres
      exact (nomatch hres)
    | success resp0 =>
      simp only [pathCredsCreateWrite, hcore, WriteResult.success.injEq] at hres
      subst hres
      rw [(applyLease_fields lr resp0).1] at hsec
      rw [(applyLease_fields lr resp0).2.2]
      exact core_success_dynamic_ip env fuel req ip2 resp0 effs0 hparse hcore hsec

/-- Witness for C9 on the demo environment: the request supplies the
uncompressed loopback 0:0:0:0:0:0:0:1, the canonical form is ::1, and the
OTP entry written by the issuance carries the canonical form. -/
theorem c9_witness :
    ({ username := "deploy", ip := "::1" } : sshOTP).ip = "::1" :=
  (c9_canonical_ip_downstream demoEnv LeaseLookup.notConfigured 5
      { role := "web", username := "", ip := "0:0:0:0:0:0:0:1" } ("::1") rfl).1
    ("otp/salt-uuid0") { username := "deploy", ip := "::1" } (by decide)

/-- C10: the dynamic-key path never writes to the storage backend — in every
outcome of GenerateDynamicCredential the trace contains no storage Put, and
its only storage reads are of the host-key entry keys/ followed by the key
name of the role. -/
theorem c10_dynamic_no_storage_write (env : Env) (role : sshRole) (username ip : String)
    (n : Nat) :
    (∀ e ∈ (GenerateDynamicCredential env role username ip n).2.1, isPut e = false) ∧
    (∀ k, Effect.storGet k ∈ (GenerateDynamicCredential env role username ip n).2.1 →
      k = "keys/" ++ role.keyName) := by
  constructor
  · intro e he
    rcases GenerateDynamicCredential_effs_spec env role username ip n e he with
      rfl | ⟨hk2, f2, c2, rfl⟩ | ⟨hk2, f2, rfl⟩ <;> rfl
  · intro k hmem
    rcases GenerateDynamicCredential_effs_spec env role username ip n _ hmem with
      heq | ⟨hk2, f2, c2, heq⟩ | ⟨hk2, f2, heq⟩
    · simp only [Effect.storGet.injEq] at heq
      exact heq
    · exact (nomatch heq)
    · exact (nomatch heq)

/-- Witness for C10 on the demo environment: the host-key read of the
successful dynamic issuance is not a storage write. -/
theorem c10_witness :
    isPut (Effect.storGet ("keys/hostkey")) = false :=
  (c10_dynamic_no_storage_write demoEnv roleDyn ("deploy") ("10.0.0.5") 0).1
    (Effect.storGet ("keys/hostkey")) (by decide)
